import Mathlib

/-!
Verification of the rename-planning and execution engine of FishRemef
(src/main.py) against its natural-language specification.

The Python source is shallowly embedded: pure string manipulation is
translated to Lean functions over `String` / `List Char`; the stateful
execution loop (`RenameWorker.run`) becomes explicit state passing over a
model of the directory contents; fallible OS calls are driven by an explicit
per-file failure oracle, mirroring the `try`/`except` structure of the code.
-/

namespace FishRemef

/-! ## Cleanup pipeline (src/main.py, `clean_filename` / `post_process_cleanup`)

Python regular expressions over fixed simple patterns are translated to
character-list transformations with the same semantics:
`re.sub(r"\s+", " ", s)` collapses every maximal whitespace run to one space,
`re.sub(r"[-_]{2,}", "_", s)` collapses every run of two or more `-`/`_` to a
single `_` (a lone separator is left as it is), and
`re.sub(r"^[-_\s]+|[-_\s]+$", "", s)` drops leading and trailing
separator/whitespace characters. -/

/-- Characters matched by the character class `[-_]` in the source regexes. -/
def isSepChar (c : Char) : Bool :=
  c = '-' || c = '_'

/-- Characters matched by `\s` (modelled by `Char.isWhitespace`). -/
def isWsChar (c : Char) : Bool :=
  c.isWhitespace

/-- Characters matched by `[-_\s]`. -/
def isSepWsChar (c : Char) : Bool :=
  isSepChar c || isWsChar c

/-- Model of `re.sub(r"\s+", " ", ·)`: collapse each maximal whitespace run to a single
space. -/
def collapseWs : List Char → List Char
  | [] => []
  | [c] => if isWsChar c then [' '] else [c]
  | c :: d :: rest =>
    if isWsChar c && isWsChar d then collapseWs (d :: rest)
    else (if isWsChar c then ' ' else c) :: collapseWs (d :: rest)

/-- Model of `re.sub(r"[-_]{2,}", "_", ·)`: collapse each run of two or more
separator characters to a single underscore; a run of length one is kept
unchanged.  The boolean argument records whether we are inside a run whose
replacement underscore has already been emitted. -/
def collapseSepsAux : Bool → List Char → List Char
  | _, [] => []
  | inRun, c :: rest =>
    if isSepChar c then
      if inRun then collapseSepsAux true rest
      else
        match rest with
        | d :: _ =>
          if isSepChar d then '_' :: collapseSepsAux true rest
          else c :: collapseSepsAux false rest
        | [] => [c]
    else c :: collapseSepsAux false rest

def collapseSeps (l : List Char) : List Char :=
  collapseSepsAux false l

/-- Model of `re.sub(r"^[-_\s]+|[-_\s]+$", "", ·)`: drop leading and trailing
separator/whitespace characters. -/
def trimEdge (p : Char → Bool) (l : List Char) : List Char :=
  ((l.dropWhile p).reverse.dropWhile p).reverse

/-- Python `str.strip()` with no argument: drop leading and trailing
whitespace. -/
def pyStrip (s : String) : String :=
  String.mk (trimEdge isWsChar s.data)

/-- Python `str.lower()` (on the ASCII names the engine handles). -/
def pyLower (s : String) : String :=
  String.mk (s.data.map Char.toLower)

/-- Removal of every non-overlapping occurrence of the non-empty pattern
`pat`, scanning left to right.  One unit of fuel is spent per step and each
step consumes at least one character, so fuel `length s` suffices. -/
def removeAllAux (pat : List Char) : Nat → List Char → List Char
  | 0, s => s
  | _ + 1, [] => []
  | fuel + 1, c :: rest =>
    if pat.isPrefixOf (c :: rest) then removeAllAux pat fuel ((c :: rest).drop pat.length)
    else c :: removeAllAux pat fuel rest

/-- Python `s.replace(pat, "")`: delete all occurrences of `pat` in `s`,
left to right, non-overlapping.  (The source only ever replaces by the empty
string, and only with non-empty patterns.) -/
def pyRemoveAll (s pat : String) : String :=
  if pat.data.isEmpty then s
  else String.mk (removeAllAux pat.data s.data.length s.data)

/-- Translation of `post_process_cleanup` (src/main.py lines 1259-1270), line by line:
whitespace runs to one space, separator runs to `_`, trim the edges, collapse
whitespace again and `strip()`, trim the edges once more. -/
def post_process_cleanup (filename : String) : String :=
  let s1 := collapseWs filename.data
  let s2 := collapseSeps s1
  let s3 := trimEdge isSepWsChar s2
  let s4 := trimEdge isWsChar (collapseWs s3)
  let s5 := trimEdge isSepWsChar s4
  String.mk s5

/-- The custom-literal cleanup mode (src/main.py lines 1226-1234): each
non-empty stripped line of the rule text is removed from the name as an exact
substring, all occurrences, in input order; the whole pass is skipped when the
rule text is blank.  The rule text is given already split at newlines. -/
def applyCustomText (rules : List String) (name : String) : String :=
  if pyStrip (String.intercalate "\n" rules) = "" then name
  else rules.foldl (fun acc rule =>
    let r := pyStrip rule
    if r = "" then acc else pyRemoveAll acc r) name

/-- Translation of `clean_filename` (src/main.py lines 1172-1256).  The mode-specific pass
(smart regex list, custom literal text, custom regex list) is abstracted as a
string transformer `modePass`; `applyCustomText` above is the faithful
translation of the custom-literal mode, while the two regex-driven modes are
arbitrary members of this function space.  After the pass the code always runs
`post_process_cleanup` and then the final guard: a result that `strip()`s to
the empty string or to fewer than 2 characters is discarded in favour of the
original stem. -/
def clean_filename (enabled : Bool) (modePass : String → String) (filename : String) : String :=
  if !enabled then filename
  else
    let original := filename
    let cleaned := modePass filename
    let cleaned := post_process_cleanup cleaned
    if pyStrip cleaned = "" ∨ (pyStrip cleaned).length < 2 then original
    else pyStrip cleaned

/-! ## Conflict detection (src/main.py, `check_conflicts`) -/

/-- Conflict kinds reported by `check_conflicts`: `duplicate` renders as the
string `"重复名称"`, `existsOnDisk` as `"文件已存在"`. -/
inductive Conflict
  | duplicate
  | existsOnDisk
deriving DecidableEq, Repr

/-- Translation of `check_conflicts` (src/main.py lines 1326-1349) viewed per index.  The
source groups the indices of `new_names` by exact name into the dictionary
`name_counts` and then flags every index of a name occurring more than once
with `"重复名称"`, and the single index of a once-occurring name with
`"文件已存在"` when the name is in the folder listing `existing_files` and the
overwrite checkbox is off.  For the index `i` this assigns exactly the value
below; no comparison is ever case-folded. -/
def check_conflicts (new_names existing_files : List String) (overwrite : Bool)
    (i : Nat) : Option Conflict :=
  match new_names.get? i with
  | none => none
  | some name =>
    if 2 ≤ new_names.count name then some .duplicate
    else if existing_files.contains name && !overwrite then some .existsOnDisk
    else none

/-! ## Name synthesis (src/main.py, `generate_new_names`)

The synthesizer calls Python `str.format(**format_vars)` on the user
template.  `pyFormat` below models CPython string formatting restricted to
the fragment the engine feeds it: fields without conversions, format specs,
attribute or item access (a `!`/`:` suffix inside a field is ignored, i.e.
rendered as the plain looked-up value).  Within this fragment the error
classification matches CPython: an unterminated `{` or a stray `}` raises
`ValueError`, an empty or all-digit field name is a positional reference and
raises `IndexError` because the call passes keyword arguments only, and an
unknown named key raises `KeyError`.  The per-file variable values (dates
rendered by `strftime`, sizes, parent directory) are taken as an abstract
string environment at the model boundary. -/

/-- The exception classes relevant to the `try`/`except` around
`custom_format.format(**format_vars)`. -/
inductive FmtError
  | keyError
  | valueError
  | indexError
deriving DecidableEq, Repr

/-- One formatting step consumes at least one character, so fuel
`length + 1` always suffices; running out of fuel cannot happen from
`pyFormat` below. -/
def pyFormatAux (vars : List (String × String)) : Nat → List Char → Except FmtError (List Char)
  | 0, _ => .error .valueError
  | _ + 1, [] => .ok []
  | fuel + 1, c :: rest =>
    if c = '{' then
      match rest with
      | '{' :: rest2 => (pyFormatAux vars fuel rest2).map (fun t => '{' :: t)
      | _ =>
        let field := rest.takeWhile (fun d => !(d = '}'))
        match rest.dropWhile (fun d => !(d = '}')) with
        | [] => .error .valueError
        | _ :: rest3 =>
          let argName := field.takeWhile (fun d => !(d = '!') && !(d = ':'))
          let head := argName.takeWhile (fun d => !(d = '.') && !(d = '['))
          if head.isEmpty || head.all Char.isDigit then .error .indexError
          else
            match vars.lookup (String.mk head) with
            | none => .error .keyError
            | some v => (pyFormatAux vars fuel rest3).map (fun t => v.data ++ t)
    else if c = '}' then
      match rest with
      | '}' :: rest2 => (pyFormatAux vars fuel rest2).map (fun t => '}' :: t)
      | _ => .error .valueError
    else (pyFormatAux vars fuel rest).map (fun t => c :: t)

/-- Model of `template.format(**vars)` for keyword arguments `vars`. -/
def pyFormat (template : String) (vars : List (String × String)) : Except FmtError String :=
  (pyFormatAux vars (template.length + 1) template.data).map String.mk

/-- Python `str(n).zfill(width)` for a natural number. -/
def zfill (width n : Nat) : String :=
  let s := toString n
  if s.length < width then String.mk (List.replicate (width - s.length) '0') ++ s
  else s

/-- src/main.py lines 1277-1282: the template text is `strip()`ed and an empty
template falls back to the default `"{name}_{index}"`. -/
def resolve_format (custom_format : String) : String :=
  let f := pyStrip custom_format
  if f = "" then "{name}_{index}" else f

/-- The body of the loop of `generate_new_names` (src/main.py lines 1313-1320):
format the template over the variable environment and append the extension; on
`KeyError` or `ValueError` fall back to
`f"{original_name}_{str(start_num + i).zfill(digits)}{extension}"`.  Any other
exception — in particular the `IndexError` raised by a positional field —
propagates out of the function. -/
def generate_new_name (fmt : String) (vars : List (String × String))
    (original_name : String) (start_num i digits : Nat) (extension : String) :
    Except FmtError String :=
  match pyFormat fmt vars with
  | .ok s => .ok (s ++ extension)
  | .error .keyError => .ok (original_name ++ "_" ++ zfill digits (start_num + i) ++ extension)
  | .error .valueError => .ok (original_name ++ "_" ++ zfill digits (start_num + i) ++ extension)
  | .error e => .error e

/-- The per-file data `generate_new_names` derives from one `FileRecord`
before formatting: the variable environment, the raw stem and the (possibly
empty) extension. -/
structure SynthInput where
  vars : List (String × String)
  original : String
  extension : String

def genNamesAux (fmt : String) (start_num digits : Nat) :
    Nat → List SynthInput → Except FmtError (List String)
  | _, [] => .ok []
  | i, f :: rest => do
    let n ← generate_new_name fmt f.vars f.original start_num i digits f.extension
    let ns ← genNamesAux fmt start_num digits (i + 1) rest
    .ok (n :: ns)

/-- Translation of `generate_new_names` (src/main.py lines 1272-1324) over the per-file
synthesis inputs: resolve the template once, then run the loop; an uncaught
formatting exception escapes the whole function. -/
def generate_new_names (custom_format : String) (start_num digits : Nat)
    (files : List SynthInput) : Except FmtError (List String) :=
  genNamesAux (resolve_format custom_format) start_num digits 0 files

/-! ## Execution engine (src/main.py, `RenameWorker.run`, lines 389-441)

The filesystem is modelled as the list of paths currently present.  A path is
kept in the split form `(parent directory, stem, suffix)` that the code reads
off `pathlib.Path` values (`old_file.parent`, `.stem`, `.suffix`); two paths
are equal exactly when their components are, matching `Path` equality on
normalized paths.  The fallible OS calls of one file's iteration —
`shutil.copy2`, `Path.unlink`, `Path.rename` — are driven by a per-file
failure oracle standing for the OS-level exceptions the spec lists (backup
copy failure, delete failure, rename failure); `Path.rename` additionally
raises when the source path no longer exists.  The two unbounded `while`
probing loops terminate on a real (finite) filesystem; here they carry an
explicit fuel, and fuel exhaustion — unreachable for adequate fuel — is
modelled as that file raising. -/

/-- A filesystem path split as `pathlib` does: parent directory, stem,
suffix (extension including its dot, possibly empty). -/
structure FPath where
  dir : String
  stem : String
  ext : String
deriving DecidableEq, Repr

/-- A candidate file name as produced by the synthesizer, split into the stem
and suffix that `Path(target_folder) / new_name` exposes. -/
structure FName where
  stem : String
  ext : String
deriving DecidableEq, Repr

/-- The plain string of a synthesized name, as interpolated into the progress
message `f"正在重命名: {new_name}"`. -/
def fnameStr (n : FName) : String :=
  n.stem ++ n.ext

/-- Which of the three fallible OS calls raise during one file's iteration. -/
structure FailSpec where
  copyFails : Bool
  unlinkFails : Bool
  renameFails : Bool
deriving DecidableEq, Repr

/-- The oracle under which no OS call fails. -/
def noFail : FailSpec :=
  ⟨false, false, false⟩

def noFails : Nat → FailSpec :=
  fun _ => noFail

/-- Worker state: the set of paths present on disk and `success_count`. -/
structure WState where
  disk : List FPath
  success_count : Nat
deriving DecidableEq, Repr

/-- What one iteration of the loop produced: whether its `except` clause ran,
and the progress event `(percent, message)` it emitted, if any. -/
structure FileOutcome where
  failed : Bool
  progress : Option (Nat × String)
deriving DecidableEq, Repr

/-- Backup-name candidates (src/main.py lines 400-405): first
`f"{stem}_backup{suffix}"`, then `f"{stem}_backup_{counter}{suffix}"` for
`counter = 1, 2, …`. -/
def backupCandidate (old : FPath) (k : Nat) : FPath :=
  if k = 0 then ⟨old.dir, old.stem ++ "_backup", old.ext⟩
  else ⟨old.dir, old.stem ++ "_backup_" ++ toString k, old.ext⟩

/-- Auto-suffix candidates (src/main.py lines 409-417): the computed target
itself, then `f"{stem}_{counter}{suffix}"` for `counter = 1, 2, …`, always
from the stem and suffix of the original computed target. -/
def targetCandidate (dir : String) (n : FName) (k : Nat) : FPath :=
  if k = 0 then ⟨dir, n.stem, n.ext⟩
  else ⟨dir, n.stem ++ "_" ++ toString k, n.ext⟩

/-- Generic probing loop: return the first candidate, from index `start` on,
satisfying the exit condition `ok`; `none` when the fuel runs out first. -/
def probeFrom (ok : FPath → Bool) (cand : Nat → FPath) : Nat → Nat → Option FPath
  | 0, _ => none
  | fuel + 1, start =>
    if ok (cand start) then some (cand start)
    else probeFrom ok cand fuel (start + 1)

/-- The backup probing loop exits at the first candidate not on disk. -/
def probeBackup (disk : List FPath) (old : FPath) (fuel : Nat) : Option FPath :=
  probeFrom (fun c => !disk.contains c) (backupCandidate old) fuel 0

/-- The auto-suffix loop `while new_path.exists() and new_path != old_file`
exits at the first candidate that is absent from disk or is the source path
itself. -/
def probeTarget (disk : List FPath) (old : FPath) (dir : String) (n : FName)
    (fuel : Nat) : Option FPath :=
  probeFrom (fun c => !disk.contains c || c = old) (targetCandidate dir n) fuel 0

/-- Lines 399-406: when backups are enabled and the source still exists, probe
a free backup name and `shutil.copy2` the source to it; an error carries the
state at the moment of the raise. -/
def backupStep (backup : Bool) (fuel : Nat) (fs : FailSpec) (old : FPath)
    (st : WState) : Except WState WState :=
  if backup && st.disk.contains old then
    match probeBackup st.disk old fuel with
    | some bp => if fs.copyFails then .error st else .ok ⟨bp :: st.disk, st.success_count⟩
    | none => .error st
  else .ok st

/-- Lines 408-421: conflict resolution, returning the resolved target path.
With overwrite off, the auto-suffix probing loop; with overwrite on, an
existing target distinct from the source is `unlink`ed first. -/
def conflictStep (overwrite : Bool) (targetDir : String) (fuel : Nat)
    (fs : FailSpec) (old : FPath) (newName : FName) (st : WState) :
    Except WState (WState × FPath) :=
  let newPath0 : FPath := ⟨targetDir, newName.stem, newName.ext⟩
  if !overwrite then
    match probeTarget st.disk old targetDir newName fuel with
    | some r => .ok (st, r)
    | none => .error st
  else
    if st.disk.contains newPath0 && !(newPath0 = old : Bool) then
      if fs.unlinkFails then .error st
      else .ok (⟨st.disk.erase newPath0, st.success_count⟩, newPath0)
    else .ok (st, newPath0)

/-- Lines 423-426: the rename itself, skipped when source and resolved target
coincide; a performed rename increments `success_count`. -/
def renameStep (fs : FailSpec) (old resolved : FPath) (st : WState) :
    Except WState WState :=
  if !(old = resolved : Bool) then
    if fs.renameFails || !st.disk.contains old then .error st
    else .ok ⟨resolved :: st.disk.erase old, st.success_count + 1⟩
  else .ok st

/-- Number of binary digits of `n` (0 for 0).  The fuel dominates the number
of halvings, since the bit length of a positive `n` never exceeds `n`. -/
def bitLenAux : Nat → Nat → Nat
  | 0, _ => 0
  | fuel + 1, n => if n = 0 then 0 else bitLenAux fuel (n / 2) + 1

def bitLen (n : Nat) : Nat :=
  bitLenAux n n

/-- Round the nonnegative rational `N / D` (for `D > 0`) to the nearest
integer, ties to even. -/
def rneDiv (N D : Nat) : Nat :=
  let q := N / D
  let r := N % D
  if 2 * r < D then q
  else if D < 2 * r then q + 1
  else if q % 2 = 0 then q else q + 1

/-- The IEEE-754 binary64 (Python float) value of the positive rational
`N / D`, as a pair `(m, E)` with `2 ^ 52 ≤ m < 2 ^ 53` and value
`m * 2 ^ (E - 52)`: the 53-bit significand obtained by rounding to nearest
with ties to even, as CPython's correctly rounded int-by-int true division
produces.  `(0, 0)` stands for a zero operand; exponent overflow and
subnormals lie far outside the quotients the worker can compute (its values
sit in `(0, 100]`) and are not modelled. -/
def floatRNE (N D : Nat) : Nat × Int :=
  if N = 0 || D = 0 then (0, 0)
  else
    let e0 : Int := (bitLen N : Int) - (bitLen D : Int)
    let ge : Bool :=
      if 0 ≤ e0 then decide (D * 2 ^ e0.toNat ≤ N) else decide (D ≤ N * 2 ^ (-e0).toNat)
    let E : Int := if ge then e0 else e0 - 1
    let s : Int := 52 - E
    let m := if 0 ≤ s then rneDiv (N * 2 ^ s.toNat) D else rneDiv N (D * 2 ^ (-s).toNat)
    if m = 2 ^ 53 then (2 ^ 52, E + 1) else (m, E)

/-- Line 428, `int((i + 1) / total_files * 100)`, in binary64 arithmetic:
true division of the two ints yields the correctly rounded binary64 quotient,
the product with 100 (exact as a float) is rounded to binary64 again, and
`int()` truncates toward zero.  Because the float product can fall just below
an integer, this can be one less than the exact `⌊100 k / total⌋`, e.g.
`pyProgressPercent 29 100 = 28`. -/
def pyProgressPercent (k total : Nat) : Nat :=
  let z := floatRNE k total
  if z.1 = 0 then 0
  else
    let s1 : Int := z.2 - 52
    let w :=
      if 0 ≤ s1 then floatRNE (z.1 * 100 * 2 ^ s1.toNat) 1
      else floatRNE (z.1 * 100) (2 ^ (-s1).toNat)
    if 0 ≤ w.2 - 52 then w.1 * 2 ^ (w.2 - 52).toNat else w.1 / 2 ^ (52 - w.2).toNat

/-- One iteration of the `for` loop of `RenameWorker.run` (lines 394-436) for
entry `(old, newName)` at position `i` of `total`: the backup, conflict and
rename steps in order, then the progress event with percentage
`int((i + 1) / total_files * 100)` computed in binary64 floating point by
`pyProgressPercent`.  A raising OS call skips the iteration's remaining
steps; state changes already made persist, and the `except` clause records
the failure (`failed = true`) without emitting progress. -/
def processOne (backup overwrite : Bool) (targetDir : String) (fuel : Nat)
    (fs : FailSpec) (total i : Nat) (old : FPath) (newName : FName)
    (st : WState) : WState × FileOutcome :=
  match backupStep backup fuel fs old st with
  | .error s => (s, ⟨true, none⟩)
  | .ok s1 =>
    match conflictStep overwrite targetDir fuel fs old newName s1 with
    | .error s => (s, ⟨true, none⟩)
    | .ok (s2, resolved) =>
      match renameStep fs old resolved s2 with
      | .error s => (s, ⟨true, none⟩)
      | .ok s3 =>
        (s3, ⟨false, some (pyProgressPercent (i + 1) total, "正在重命名: " ++ fnameStr newName)⟩)

/-- The `for i, (old_path, new_name) in enumerate(zip(...))` loop, threading
the state and collecting one outcome per processed entry. -/
def runFrom (backup overwrite : Bool) (targetDir : String) (fuel : Nat)
    (fails : Nat → FailSpec) (total : Nat) :
    Nat → List (FPath × FName) → WState → WState × List FileOutcome
  | _, [], st => (st, [])
  | i, (old, nn) :: rest, st =>
    let r1 := processOne backup overwrite targetDir fuel (fails i) total i old nn st
    let r2 := runFrom backup overwrite targetDir fuel fails total (i + 1) rest r1.1
    (r2.1, r1.2 :: r2.2)

/-- What `RenameWorker.run` leaves behind: the final worker state, the
per-file outcomes, and the terminal `finished` event `(success, message)`. -/
structure RunResult where
  state : WState
  outcomes : List FileOutcome
  finishedSuccess : Bool
  finishedMsg : String
deriving Repr

/-- Translation of `RenameWorker.run` (src/main.py lines 389-441): zip the file list with the
new names, process each entry in order under the per-file `try`/`except`, and
emit the terminal event.  Every per-file exception is caught inside the loop,
so the `try` body of `run` itself completes and emits
`finished.emit(True, f"重命名完成！成功处理 {success_count}/{total_files} 个文件")`;
the outer `except` branch emitting `False` is unreachable in this model, as
in the source nothing after the loop can raise. -/
def workerRun (backup overwrite : Bool) (targetDir : String) (fuel : Nat)
    (fails : Nat → FailSpec) (file_list : List FPath) (new_names : List FName)
    (st : WState) : RunResult :=
  let total := file_list.length
  let r := runFrom backup overwrite targetDir fuel fails total 0
    (file_list.zip new_names) st
  ⟨r.1, r.2, true,
    "重命名完成！成功处理 " ++ toString r.1.success_count ++ "/" ++ toString total ++ " 个文件"⟩

/-! ## Helper lemmas -/

/-- Two distinct positions holding the same value force a count of at least
two. -/
theorem two_le_count_of_get? {α : Type} [DecidableEq α] :
    ∀ (l : List α) (i j : Nat) (a : α), i < j → l.get? i = some a →
      l.get? j = some a → 2 ≤ l.count a := by
  intro l
  induction l with
  | nil => intro i j a _ h _; simp at h
  | cons b t ih =>
    intro i j a hij hi hj
    cases i with
    | zero =>
      cases j with
      | zero => omega
      | succ j' =>
        rw [List.get?_cons_zero] at hi
        rw [List.get?_cons_succ] at hj
        injection hi with hba
        subst hba
        have hmem : b ∈ t := List.get?_mem hj
        have h1 : 0 < t.count b := List.count_pos_iff.mpr hmem
        rw [List.count_cons]
        split
        · omega
        · next hc => simp at hc
    | succ i' =>
      cases j with
      | zero => omega
      | succ j' =>
        rw [List.get?_cons_succ] at hi
        rw [List.get?_cons_succ] at hj
        have h2 := ih i' j' a (by omega) hi hj
        rw [List.count_cons]
        split <;> omega

/-- The loop produces exactly one outcome per entry, whatever the failure
oracle decides. -/
theorem runFrom_length (backup overwrite : Bool) (targetDir : String)
    (fuel : Nat) (fails : Nat → FailSpec) (total : Nat)
    (entries : List (FPath × FName)) :
    ∀ (i : Nat) (st : WState),
      ((runFrom backup overwrite targetDir fuel fails total i entries st).2).length
        = entries.length := by
  induction entries with
  | nil => intro i st; rfl
  | cons e rest ih =>
    intro i st
    obtain ⟨old, nn⟩ := e
    simp only [runFrom, List.length_cons]
    rw [ih]

/-- Every iteration either runs its except clause, emitting nothing, or
completes and emits exactly the truncated percentage for its position. -/
theorem processOne_outcome (backup overwrite : Bool) (targetDir : String)
    (fuel : Nat) (fs : FailSpec) (total i : Nat) (old : FPath)
    (newName : FName) (st : WState) :
    (processOne backup overwrite targetDir fuel fs total i old newName st).2
        = ⟨true, none⟩ ∨
      ∃ m, (processOne backup overwrite targetDir fuel fs total i old newName st).2
        = ⟨false, some (pyProgressPercent (i + 1) total, m)⟩ := by
  rcases hb : backupStep backup fuel fs old st with s | s1
  · left; simp [processOne, hb]
  · rcases hc : conflictStep overwrite targetDir fuel fs old newName s1 with s | ⟨s2, resolved⟩
    · left; simp [processOne, hb, hc]
    · rcases hr : renameStep fs old resolved s2 with s | s3
      · left; simp [processOne, hb, hc, hr]
      · right
        exact ⟨"正在重命名: " ++ fnameStr newName, by simp [processOne, hb, hc, hr]⟩

/-- Positional characterization of the collected outcomes. -/
theorem runFrom_get? (backup overwrite : Bool) (targetDir : String)
    (fuel : Nat) (fails : Nat → FailSpec) (total : Nat)
    (entries : List (FPath × FName)) :
    ∀ (i : Nat) (st : WState) (k : Nat) (o : FileOutcome),
      ((runFrom backup overwrite targetDir fuel fails total i entries st).2).get? k
          = some o →
      o = ⟨true, none⟩ ∨ ∃ m, o = ⟨false, some (pyProgressPercent (i + k + 1) total, m)⟩ := by
  induction entries with
  | nil => intro i st k o h; simp [runFrom] at h
  | cons e rest ih =>
    intro i st k o h
    obtain ⟨old, nn⟩ := e
    simp only [runFrom] at h
    cases k with
    | zero =>
      rw [List.get?_cons_zero] at h
      injection h with h
      subst h
      simpa using processOne_outcome backup overwrite targetDir fuel (fails i)
        total i old nn st
    | succ k' =>
      rw [List.get?_cons_succ] at h
      rcases ih (i + 1) _ k' o h with h1 | ⟨m, h1⟩
      · exact Or.inl h1
      · right
        have hidx : i + 1 + k' + 1 = i + (k' + 1) + 1 := by omega
        rw [hidx] at h1
        exact ⟨m, h1⟩

/-- A raise inside the backup step leaves the state as it was. -/
theorem backupStep_error_state (backup : Bool) (fuel : Nat) (fs : FailSpec)
    (old : FPath) (st s : WState)
    (h : backupStep backup fuel fs old st = .error s) : s = st := by
  unfold backupStep at h
  split at h
  · split at h
    · split at h
      · injection h with h; exact h.symm
      · simp at h
    · injection h with h; exact h.symm
  · simp at h

/-- A successful backup step never changes the success counter. -/
theorem backupStep_ok_success (backup : Bool) (fuel : Nat) (fs : FailSpec)
    (old : FPath) (st s : WState)
    (h : backupStep backup fuel fs old st = .ok s) :
    s.success_count = st.success_count := by
  unfold backupStep at h
  split at h
  · split at h
    · split at h
      · simp at h
      · injection h with h; rw [← h]
    · simp at h
  · injection h with h; rw [← h]

/-- When the computed target path coincides with the source path, conflict
resolution either raises with the state unchanged (only possible through
probe-fuel exhaustion, which a real filesystem never reaches) or returns the
source path itself as the resolved target, with the state unchanged: the
overwrite branch does not delete (the target is the source), and the probing
branch exits on its first candidate. -/
theorem conflictStep_self (overwrite : Bool) (targetDir : String) (fuel : Nat)
    (fs : FailSpec) (old : FPath) (nn : FName) (st : WState)
    (h : (⟨targetDir, nn.stem, nn.ext⟩ : FPath) = old) :
    conflictStep overwrite targetDir fuel fs old nn st = .error st ∨
      conflictStep overwrite targetDir fuel fs old nn st = .ok (st, old) := by
  unfold conflictStep
  cases overwrite with
  | true =>
    right
    simp [h]
  | false =>
    cases fuel with
    | zero => left; simp [probeTarget, probeFrom]
    | succ f =>
      right
      have hp : probeTarget st.disk old targetDir nn (f + 1) = some old := by
        simp [probeTarget, probeFrom, targetCandidate, h]
      simp [hp]

/-- A rename whose source and resolved target coincide is a no-op. -/
theorem renameStep_self (fs : FailSpec) (old : FPath) (st : WState) :
    renameStep fs old old st = .ok st := by
  simp [renameStep]

/-- A probing loop that returns a candidate returns the first one, from the
start index on, satisfying its exit condition; all earlier candidates fail
it. -/
theorem probeFrom_spec (ok : FPath → Bool) (cand : Nat → FPath) :
    ∀ (fuel start : Nat) (r : FPath), probeFrom ok cand fuel start = some r →
      ok r = true ∧ ∃ K, start ≤ K ∧ r = cand K ∧
        ∀ k, start ≤ k → k < K → ok (cand k) = false := by
  intro fuel
  induction fuel with
  | zero => intro start r h; simp [probeFrom] at h
  | succ f ih =>
    intro start r h
    unfold probeFrom at h
    split at h
    · next hok =>
      injection h with h
      subst h
      exact ⟨hok, start, Nat.le_refl _, rfl, fun k h1 h2 => absurd h2 (by omega)⟩
    · next hok =>
      obtain ⟨hr, K, hK1, hK2, hK3⟩ := ih (start + 1) r h
      refine ⟨hr, K, by omega, hK2, fun k h1 h2 => ?_⟩
      rcases Nat.eq_or_lt_of_le h1 with heq | hlt
      · subst heq
        simpa using hok
      · exact hK3 k (by omega) h2

/-! ## Claim theorems -/

/-- Claim C2: no per-file failure aborts the batch.  For every entry list and
every failure oracle — in particular oracles making the backup copy, the
delete, or the rename of arbitrary files raise — the worker still produces
one outcome per zipped entry: every file after a failing one is processed. -/
theorem worker_processes_every_entry (backup overwrite : Bool)
    (targetDir : String) (fuel : Nat) (fails : Nat → FailSpec)
    (file_list : List FPath) (new_names : List FName) (st : WState) :
    (workerRun backup overwrite targetDir fuel fails file_list new_names st).outcomes.length
      = (file_list.zip new_names).length :=
  runFrom_length backup overwrite targetDir fuel fails file_list.length
    (file_list.zip new_names) 0 st

/-- Claim C10: whenever the per-file loop runs to completion — which it always
does, since every per-file exception is caught inside the loop — the terminal
completion event reports success, whatever the failure oracle did to the
individual files. -/
theorem worker_reports_success_true (backup overwrite : Bool)
    (targetDir : String) (fuel : Nat) (fails : Nat → FailSpec)
    (file_list : List FPath) (new_names : List FName) (st : WState) :
    (workerRun backup overwrite targetDir fuel fails file_list new_names st).finishedSuccess
      = true :=
  rfl

/-- Claim C1, counterexample: on the single-character stem `"a"` with cleanup
enabled in the custom-literal mode with no rules, the mode pass and the
post-processing leave `"a"`, whose length is below 2, so the final guard
returns the original stem `"a"` — and `clean_filename` does return a
single-character string, contradicting the claim that it never returns an
empty or single-character string. -/
theorem clean_filename_single_char_counterexample :
    clean_filename true (applyCustomText []) "a" = "a" ∧
      (clean_filename true (applyCustomText []) "a").length < 2 := by
  constructor
  · rfl
  · decide

/-- Claim C1 (amended): for every cleanup switch, every mode-specific pass and
every input stem, `clean_filename` either returns the original stem unchanged
or returns a cleaned string of length at least 2; whenever the mode pass plus
post-processing would leave an empty or shorter-than-2 result, the original
stem is returned, so a degenerate result can only be the original stem
itself. -/
theorem clean_filename_returns_original_or_long (enabled : Bool)
    (modePass : String → String) (stem : String) :
    clean_filename enabled modePass stem = stem ∨
      2 ≤ (clean_filename enabled modePass stem).length := by
  cases enabled with
  | false => left; rfl
  | true =>
    simp only [clean_filename, Bool.not_true]
    simp only [Bool.false_eq_true, if_false]
    split
    · left; rfl
    · next hg =>
      right
      push_neg at hg
      omega

/-- Claim C3: the template `"{0}"` is a positional field reference; CPython
`str.format` raises `IndexError` on it because `generate_new_names` passes
keyword arguments only, and the `except (KeyError, ValueError)` clause does
not catch `IndexError`, so the exception escapes `generate_new_names` instead
of producing the fallback name. -/
theorem generate_new_names_positional_raises :
    generate_new_names "{0}" 1 3
      [⟨[("name", "a"), ("original", "a"), ("index", "001")], "a", ".txt"⟩]
      = .error .indexError := by
  rfl

/-- Claim C5: whenever two distinct entries resolve to the same target name,
`check_conflicts` flags both of them as duplicate conflicts, for either value
of the overwrite flag. -/
theorem check_conflicts_flags_duplicates (new_names existing : List String)
    (overwrite : Bool) (i j : Nat) (n : String) (hij : i ≠ j)
    (hi : new_names.get? i = some n) (hj : new_names.get? j = some n) :
    check_conflicts new_names existing overwrite i = some .duplicate ∧
      check_conflicts new_names existing overwrite j = some .duplicate := by
  have h2 : 2 ≤ new_names.count n := by
    rcases Nat.lt_or_ge i j with h | h
    · exact two_le_count_of_get? new_names i j n h hi hj
    · exact two_le_count_of_get? new_names j i n (by omega) hj hi
  constructor
  · unfold check_conflicts
    rw [hi]
    simp [h2]
  · unfold check_conflicts
    rw [hj]
    simp [h2]

/-- Witness for the duplicate-flagging theorem on a concrete plan: the names
`["a", "b", "a"]` at positions 0 and 2, with overwrite enabled. -/
theorem check_conflicts_flags_duplicates_witness :
    ((0 : Nat) ≠ 2 ∧ ["a", "b", "a"].get? 0 = some "a" ∧
        ["a", "b", "a"].get? 2 = some "a") ∧
      check_conflicts ["a", "b", "a"] [] true 0 = some .duplicate ∧
        check_conflicts ["a", "b", "a"] [] true 2 = some .duplicate :=
  ⟨⟨by decide, by decide, by decide⟩,
    check_conflicts_flags_duplicates ["a", "b", "a"] [] true 0 2 "a"
      (by decide) (by decide) (by decide)⟩

/-- Claim C7, counterexample.  First run: three files, all renames succeed;
the emitted percentages are 33, 66, 100, whereas the claim's
`round(100 * k / totalCount)` gives 67 for the second file — the code
truncates the float product with `int(...)`.  Second run: a single file whose
rename raises; the claim says a progress event is emitted after every file
regardless of outcome, but the failing file emits none, because the emit sits
inside the `try` block after the rename.  Last conjuncts: at file 29 of 100
the binary64 product `29 / 100 * 100` is 28.999999999999996, so the code
emits 28 where the claim's rounding gives 29 — the emitted percentage is not
even the exact floor there. -/
theorem progress_truncation_counterexample :
    ((workerRun false false "d" 3 noFails
          [⟨"d", "f1", ".t"⟩, ⟨"d", "f2", ".t"⟩, ⟨"d", "f3", ".t"⟩]
          [⟨"g1", ".t"⟩, ⟨"g2", ".t"⟩, ⟨"g3", ".t"⟩]
          ⟨[⟨"d", "f1", ".t"⟩, ⟨"d", "f2", ".t"⟩, ⟨"d", "f3", ".t"⟩], 0⟩).outcomes.map
        (fun o => o.progress.map Prod.fst) = [some 33, some 66, some 100]) ∧
      (66 : Nat) ≠ 67 ∧
      (workerRun false false "d" 3 (fun _ => ⟨false, false, true⟩)
          [⟨"d", "f1", ".t"⟩] [⟨"g1", ".t"⟩]
          ⟨[⟨"d", "f1", ".t"⟩], 0⟩).outcomes = [⟨true, none⟩] ∧
      pyProgressPercent 29 100 = 28 ∧ (28 : Nat) ≠ 29 := by
  refine ⟨by decide, by decide, by decide, by decide, by decide⟩

/-- Claim C7 (amended): a progress event is emitted only after a file whose
iteration completes without an exception (a failing file emits none), and its
percentage is `int((k / totalCount) * 100)` evaluated in binary64 floating
point, where `k` is the 1-based position of the file — a truncation of the
float product, never the rounding the claim states, and one less than the
exact `⌊100 k / totalCount⌋` wherever the float product falls just below an
integer (file 29 of 100 emits 28). -/
theorem progress_truncated_and_only_on_completion (backup overwrite : Bool)
    (targetDir : String) (fuel : Nat) (fails : Nat → FailSpec)
    (file_list : List FPath) (new_names : List FName) (st : WState)
    (k : Nat) (o : FileOutcome)
    (h : (workerRun backup overwrite targetDir fuel fails file_list new_names
        st).outcomes.get? k = some o) :
    (o.failed = true → o.progress = none) ∧
      (o.failed = false →
        ∃ m, o.progress = some (pyProgressPercent (k + 1) file_list.length, m)) := by
  have hchar := runFrom_get? backup overwrite targetDir fuel fails
    file_list.length (file_list.zip new_names) 0 st k o h
  rcases hchar with h1 | ⟨m, h1⟩ <;> subst h1
  · exact ⟨fun _ => rfl, fun hf => by simp at hf⟩
  · refine ⟨fun hf => by simp at hf, fun _ => ⟨m, ?_⟩⟩
    show some (pyProgressPercent (0 + k + 1) file_list.length, m)
      = some (pyProgressPercent (k + 1) file_list.length, m)
    rw [Nat.zero_add]

/-- Witness for the progress theorem: a one-file run that succeeds, emitting
percentage `pyProgressPercent (0 + 1) 1 = 100`. -/
theorem progress_truncated_witness :
    ((workerRun false false "d" 3 noFails [⟨"d", "f1", ".t"⟩] [⟨"g1", ".t"⟩]
        ⟨[⟨"d", "f1", ".t"⟩], 0⟩).outcomes.get? 0
      = some ⟨false, some (100, "正在重命名: g1.t")⟩) ∧
      (((⟨false, some (100, "正在重命名: g1.t")⟩ : FileOutcome).failed = true →
          (⟨false, some (100, "正在重命名: g1.t")⟩ : FileOutcome).progress = none) ∧
        ((⟨false, some (100, "正在重命名: g1.t")⟩ : FileOutcome).failed = false →
          ∃ m, (⟨false, some (100, "正在重命名: g1.t")⟩ : FileOutcome).progress
            = some (pyProgressPercent (0 + 1) ([⟨"d", "f1", ".t"⟩] : List FPath).length, m))) :=
  ⟨by decide,
    progress_truncated_and_only_on_completion false false "d" 3 noFails
      [⟨"d", "f1", ".t"⟩] [⟨"g1", ".t"⟩] ⟨[⟨"d", "f1", ".t"⟩], 0⟩ 0
      ⟨false, some (100, "正在重命名: g1.t")⟩ (by decide)⟩

/-- Claim C4, counterexample: disk holds `"d/a.txt"` and `"d/a_1.txt"`, the
source is `"d/a_1.txt"` and its computed target is `"d/a.txt"`, which exists
and is not the source — the claim's precondition.  The probing loop stops at
the suffixed candidate `"d/a_1.txt"` because the loop condition
`new_path.exists() and new_path != old_file` also exits when the candidate is
the source itself; that name is still present on disk, and the subsequent
rename is skipped as a no-op (the state is unchanged), so no rename to a
name not present on disk takes place, contradicting the claim. -/
theorem probe_target_source_collision_counterexample :
    ((⟨"d", "a", ".txt"⟩ : FPath) ∈
        ([⟨"d", "a", ".txt"⟩, ⟨"d", "a_1", ".txt"⟩] : List FPath)) ∧
      (⟨"d", "a", ".txt"⟩ : FPath) ≠ ⟨"d", "a_1", ".txt"⟩ ∧
      probeTarget [⟨"d", "a", ".txt"⟩, ⟨"d", "a_1", ".txt"⟩] ⟨"d", "a_1", ".txt"⟩
          "d" ⟨"a", ".txt"⟩ 5 = some ⟨"d", "a_1", ".txt"⟩ ∧
      ((⟨"d", "a_1", ".txt"⟩ : FPath) ∈
        ([⟨"d", "a", ".txt"⟩, ⟨"d", "a_1", ".txt"⟩] : List FPath)) ∧
      (processOne false false "d" 5 noFail 1 0 ⟨"d", "a_1", ".txt"⟩ ⟨"a", ".txt"⟩
          ⟨[⟨"d", "a", ".txt"⟩, ⟨"d", "a_1", ".txt"⟩], 0⟩).1
        = ⟨[⟨"d", "a", ".txt"⟩, ⟨"d", "a_1", ".txt"⟩], 0⟩ := by
  refine ⟨by decide, by decide, by decide, by decide, by decide⟩

/-- Claim C4 (amended): with overwrite off, the auto-suffix loop tries the
computed target and then its `_N` variants for successive `N = 1, 2, …`,
stopping at the first candidate that is either not present on disk or is the
source path itself; every earlier candidate was present on disk and distinct
from the source.  When the stopping name is free the file is renamed to it
(never overwriting anything); when it is the source, the rename is skipped as
a no-op. -/
theorem probe_target_stops_at_free_or_source (disk : List FPath) (old : FPath)
    (dir : String) (nn : FName) (fuel : Nat) (r : FPath)
    (h : probeTarget disk old dir nn fuel = some r) :
    (r ∉ disk ∨ r = old) ∧
      ∃ K, r = targetCandidate dir nn K ∧
        ∀ k, k < K → targetCandidate dir nn k ∈ disk ∧
          targetCandidate dir nn k ≠ old := by
  obtain ⟨hr, K, _, hK2, hK3⟩ := probeFrom_spec _ _ fuel 0 r h
  constructor
  · simpa using hr
  · refine ⟨K, hK2, fun k hk => ?_⟩
    have hfail := hK3 k (Nat.zero_le k) hk
    simpa using hfail

/-- Witness for the probing theorem: target `"d/a.txt"` is taken, the source
is the unrelated `"d/b.txt"`, and the loop stops at the free `"d/a_1.txt"`. -/
theorem probe_target_stops_witness :
    (probeTarget [⟨"d", "a", ".txt"⟩] ⟨"d", "b", ".txt"⟩ "d" ⟨"a", ".txt"⟩ 3
        = some ⟨"d", "a_1", ".txt"⟩) ∧
      (((⟨"d", "a_1", ".txt"⟩ : FPath) ∉ ([⟨"d", "a", ".txt"⟩] : List FPath) ∨
          (⟨"d", "a_1", ".txt"⟩ : FPath) = ⟨"d", "b", ".txt"⟩) ∧
        ∃ K, (⟨"d", "a_1", ".txt"⟩ : FPath) = targetCandidate "d" ⟨"a", ".txt"⟩ K ∧
          ∀ k, k < K →
            targetCandidate "d" ⟨"a", ".txt"⟩ k ∈ ([⟨"d", "a", ".txt"⟩] : List FPath) ∧
              targetCandidate "d" ⟨"a", ".txt"⟩ k ≠ ⟨"d", "b", ".txt"⟩) :=
  ⟨by decide,
    probe_target_stops_at_free_or_source [⟨"d", "a", ".txt"⟩] ⟨"d", "b", ".txt"⟩
      "d" ⟨"a", ".txt"⟩ 3 ⟨"d", "a_1", ".txt"⟩ (by decide)⟩

/-- Claim C6, counterexample: a single entry whose source `"d/a.txt"` equals
its computed target.  The rename is skipped as a no-op, the iteration
completes without exception and emits progress, but `success_count` stays 0
and the terminal message reports 0 of 1 — the skip branch never executes
`success_count += 1`, contradicting the claim that the no-op counts as a
success. -/
theorem noop_not_counted_counterexample :
    (workerRun false false "d" 5 noFails [⟨"d", "a", ".txt"⟩] [⟨"a", ".txt"⟩]
        ⟨[⟨"d", "a", ".txt"⟩], 0⟩).state.success_count = 0 ∧
      (workerRun false false "d" 5 noFails [⟨"d", "a", ".txt"⟩] [⟨"a", ".txt"⟩]
          ⟨[⟨"d", "a", ".txt"⟩], 0⟩).outcomes
        = [⟨false, some (100, "正在重命名: a.txt")⟩] ∧
      (workerRun false false "d" 5 noFails [⟨"d", "a", ".txt"⟩] [⟨"a", ".txt"⟩]
          ⟨[⟨"d", "a", ".txt"⟩], 0⟩).finishedMsg
        = "重命名完成！成功处理 0/1 个文件" := by
  refine ⟨by decide, by decide, by decide⟩

/-- Claim C6 (amended): when an entry's computed target path equals its source
path, the rename is skipped as a no-op, but the entry is not counted in the
reported success count — `success_count` is left unchanged by that entry,
under every policy, failure oracle and starting state. -/
theorem noop_same_path_not_counted (backup overwrite : Bool)
    (targetDir : String) (fuel : Nat) (fs : FailSpec) (total i : Nat)
    (old : FPath) (nn : FName) (st : WState)
    (h : (⟨targetDir, nn.stem, nn.ext⟩ : FPath) = old) :
    ((processOne backup overwrite targetDir fuel fs total i old nn st).1).success_count
      = st.success_count := by
  rcases hb : backupStep backup fuel fs old st with s | s1
  · have hs := backupStep_error_state backup fuel fs old st s hb
    subst hs
    simp [processOne, hb]
  · have hsc1 : s1.success_count = st.success_count :=
      backupStep_ok_success backup fuel fs old st s1 hb
    rcases conflictStep_self overwrite targetDir fuel fs old nn s1 h with hc | hc
    · simp [processOne, hb, hc, hsc1]
    · simp [processOne, hb, hc, renameStep_self, hsc1]

/-- Witness for the no-op theorem: source `"d/a.txt"`, target name `"a.txt"`
in target folder `"d"`, with backup and overwrite both on. -/
theorem noop_same_path_witness :
    ((⟨"d", "a", ".txt"⟩ : FPath) = ⟨"d", "a", ".txt"⟩) ∧
      ((processOne true true "d" 4 noFail 1 0 ⟨"d", "a", ".txt"⟩ ⟨"a", ".txt"⟩
          ⟨[⟨"d", "a", ".txt"⟩], 0⟩).1).success_count
        = (⟨[⟨"d", "a", ".txt"⟩], 0⟩ : WState).success_count :=
  ⟨rfl, noop_same_path_not_counted true true "d" 4 noFail 1 0
    ⟨"d", "a", ".txt"⟩ ⟨"a", ".txt"⟩ ⟨[⟨"d", "a", ".txt"⟩], 0⟩ rfl⟩

/-- Claim C8, counterexample: a plan whose single file is currently named
`"a.txt"` and resolves to the target name `"a.txt"`.  The folder listing
consists of exactly the plan's own source file, yet `check_conflicts` flags
the entry as an exists-on-disk conflict, because the listing
`existing_files` is built from every file in the folder and the plan's own
source files are never excluded — contradicting the claim that target names
coinciding only with a plan source file are not flagged. -/
theorem exists_on_disk_source_counterexample :
    check_conflicts ["a.txt"] ["a.txt"] false 0 = some .existsOnDisk := by
  decide

/-- Claim C8 (amended): an entry whose target name occurs exactly once in the
plan is flagged as exists-on-disk exactly when the overwrite flag is off and
the name appears in the folder listing — a listing that includes the plan's
own source files, which are not excluded. -/
theorem exists_on_disk_characterization (new_names existing : List String)
    (overwrite : Bool) (i : Nat) (n : String) (hi : new_names.get? i = some n)
    (hc : new_names.count n = 1) :
    (check_conflicts new_names existing overwrite i = some .existsOnDisk ↔
      existing.contains n = true ∧ overwrite = false) := by
  unfold check_conflicts
  rw [hi]
  have h2 : ¬ 2 ≤ new_names.count n := by omega
  cases hco : existing.contains n <;> cases ho : overwrite <;> simp_all

/-- Witness for the exists-on-disk characterization: one entry with target
name `"x.txt"`, folder listing `["x.txt", "y.txt"]`, overwrite off. -/
theorem exists_on_disk_characterization_witness :
    (["x.txt"].get? 0 = some "x.txt" ∧ (["x.txt"] : List String).count "x.txt" = 1) ∧
      (check_conflicts ["x.txt"] ["x.txt", "y.txt"] false 0 = some .existsOnDisk ↔
        (["x.txt", "y.txt"] : List String).contains "x.txt" = true ∧ false = false) :=
  ⟨⟨by decide, by decide⟩,
    exists_on_disk_characterization ["x.txt"] ["x.txt", "y.txt"] false 0 "x.txt"
      (by decide) (by decide)⟩

/-- Claim C9, counterexample: the names `"A.txt"` and `"a.txt"` differ only in
letter case (their lower-casings agree), yet `check_conflicts` reports no
conflict for either entry under any flag value — the code never lower-cases
names and never consults the case-sensitivity checkbox, so names differing
only in case are not treated as equal. -/
theorem case_folding_counterexample :
    ("A.txt" ≠ "a.txt") ∧ pyLower "A.txt" = pyLower "a.txt" ∧
      check_conflicts ["A.txt", "a.txt"] [] false 0 = none ∧
      check_conflicts ["A.txt", "a.txt"] [] false 1 = none := by
  refine ⟨by decide, by decide, by decide, by decide⟩

/-- Claim C9 (amended): name comparison in `check_conflicts` is always exact
(case-sensitive).  An entry whose name occurs exactly once in the plan under
exact comparison and exactly matches no listing entry is never flagged,
whatever other names differ from it only in letter case. -/
theorem check_conflicts_exact_comparison (new_names existing : List String)
    (overwrite : Bool) (i : Nat) (n : String) (hi : new_names.get? i = some n)
    (hc : new_names.count n = 1) (he : existing.contains n = false) :
    check_conflicts new_names existing overwrite i = none := by
  unfold check_conflicts
  rw [hi]
  have h2 : ¬ 2 ≤ new_names.count n := by omega
  simp_all

/-- Witness for the exact-comparison theorem: position 0 of the plan
`["A.txt", "a.txt"]` with listing `["A.TXT"]` — both lists hold names that
are case variants of `"A.txt"`, and no conflict is reported. -/
theorem check_conflicts_exact_comparison_witness :
    ((["A.txt", "a.txt"] : List String).get? 0 = some "A.txt" ∧
        (["A.txt", "a.txt"] : List String).count "A.txt" = 1 ∧
        (["A.TXT"] : List String).contains "A.txt" = false) ∧
      check_conflicts ["A.txt", "a.txt"] ["A.TXT"] false 0 = none :=
  ⟨⟨by decide, by decide, by decide⟩,
    check_conflicts_exact_comparison ["A.txt", "a.txt"] ["A.TXT"] false 0 "A.txt"
      (by decide) (by decide) (by decide)⟩

end FishRemef
